import Mathlib

/-!
Verification of the appointment availability and conflict-resolution engine of
the iconic-emr front-desk scheduler.

The embedding models timestamps as integers counting milliseconds since the
epoch (JavaScript `Date` values compare by their millisecond timestamp, and the
code builds times with `addMinutes`/`setHours`/`setMinutes` arithmetic, so the
comparison and arithmetic structure is exactly integer arithmetic on
milliseconds).  ISO-8601 strings in appointment payloads are represented
directly by their timestamps: the source converts them with `new Date(s)`
before any comparison, and no claim depends on string syntax.
-/

namespace IconicEmr

/-- A half-open time interval.  The source has no named interval type; slot and
appointment objects carry `start`/`end` (named `stop` here because `end` is a
Lean keyword). -/
structure TimeInterval where
  start : Int
  stop : Int
  deriving Repr, DecidableEq

/-- A candidate bookable slot, as produced by `getAvailableSlots`: an object
with `start` and `end` `Date` fields (CalendarPickerModal.tsx, line 42 and the
uses at lines 52, 57, 110). -/
structure Slot where
  start : Int
  stop : Int
  deriving Repr, DecidableEq

/-- A provider row as consumed by the picker (`useProviders`); only `id` is
read by the scheduling logic, `display_name`/`specialty` are display data. -/
structure Provider where
  id : String
  display_name : String
  specialty : Option String := none
  deriving Repr, DecidableEq

/-- An existing appointment as consumed by the conflict checks
(`useCalendarAppointments` rows): `provider_id` may be null/undefined and
`starts_at`/`ends_at` are ISO timestamps, modelled as milliseconds. -/
structure Appt where
  id : String
  provider_id : Option String
  starts_at : Int
  ends_at : Int
  deriving Repr, DecidableEq

/-- CalendarPickerModal.tsx lines 44-48:
`overlaps(aStart, aEnd, bStart, bEnd) = as < bEnd && ae > bStart` after
coercing strings to `Date`.  Half-open interval overlap test. -/
def overlaps (aStart aEnd bStart bEnd : Int) : Bool :=
  decide (aStart < bEnd) && decide (aEnd > bStart)

/-- The appointment-busy test that appears inline three times in
CalendarPickerModal.tsx (lines 52, 57 and 110):
`dayAppointments.some(appt => appt.provider_id === p.id && overlaps(appt.starts_at, appt.ends_at, slot.start, slot.end))`. -/
def providerBusyAt (providerId : String) (slot : Slot) (dayAppointments : List Appt) : Bool :=
  dayAppointments.any fun a =>
    a.provider_id == some providerId && overlaps a.starts_at a.ends_at slot.start slot.stop

/-- CalendarPickerModal.tsx lines 50-53.  The JavaScript guard
`if (!providerId) return false` fires exactly when the string is empty: every
call site passes a plain string (the `selectedProvider` state), so falsiness
means the empty string. -/
def isSlotConflictingForProvider (slot : Slot) (providerId : String) (dayAppointments : List Appt) : Bool :=
  if providerId == "" then false
  else providerBusyAt providerId slot dayAppointments

/-- CalendarPickerModal.tsx lines 55-58: empty provider list short-circuits to
`false`; otherwise every provider must have an overlapping appointment. -/
def isSlotTakenByAllProviders (slot : Slot) (providers : List Provider) (dayAppointments : List Appt) : Bool :=
  if providers.isEmpty then false
  else providers.all fun p => providerBusyAt p.id slot dayAppointments

/-- CalendarPickerModal.tsx lines 105-122.  Walks `slots` in order; in
"any provider" mode (`selectedProvider` empty or the `'all'` sentinel) it takes
the first free provider in list order at the first slot admitting one,
otherwise it takes the first slot free for the selected provider.  The early
`if (!slots || slots.length === 0) return null` is the base case. -/
def findNearestAvailable (slots : List Slot) (selectedProvider : String)
    (providers : List Provider) (dayAppointments : List Appt) : Option (Slot × String) :=
  match slots with
  | [] => none
  | slot :: rest =>
    if selectedProvider == "" || selectedProvider == "all" then
      match providers.find? (fun p => !providerBusyAt p.id slot dayAppointments) with
      | some freeProvider => some (slot, freeProvider.id)
      | none => findNearestAvailable rest selectedProvider providers dayAppointments
    else
      if !isSlotConflictingForProvider slot selectedProvider dayAppointments then
        some (slot, selectedProvider)
      else
        findNearestAvailable rest selectedProvider providers dayAppointments

/-- The payload handed to `createAppointmentMutation.mutateAsync`
(CalendarPickerModal.tsx lines 81-87). -/
structure Draft where
  patient_id : String
  provider_id : Option String
  room_id : Option String
  starts_at : Int
  ends_at : Int
  deriving Repr, DecidableEq

/-- Outcome of a submission attempt: the early-return on missing mandatory
fields (the "Missing information" toast), the provider-conflict early return,
or the create call with its payload. -/
inductive SubmitResult where
  | missingInfo
  | providerConflict
  | created (draft : Draft)
  deriving Repr, DecidableEq

/-- Models `Number(field)` on one split field: defined when the field is a nonempty
run of decimal digits (which is what `format(slot.start, 'HH:mm')` produces). -/
def digitsToNatAux : List Char → Nat → Option Nat
  | [], acc => some acc
  | c :: cs, acc =>
    if c.isDigit then digitsToNatAux cs (acc * 10 + (c.toNat - 48)) else none

def digitsToNat? : List Char → Option Nat
  | [] => none
  | cs => digitsToNatAux cs 0

/-- Models `selectedTime.split(':').map(Number)` destructured as `[hours, minutes]`
(CalendarPickerModal.tsx line 71), with the split modelled on the character
list.  The time strings reaching this point are produced by
`format(slot.start, 'HH:mm')`, so both fields are numeric; the function is
not called on the empty string (the validation guard fires first). -/
def parseHM (s : String) : Nat × Nat :=
  match (s.toList.splitOn ':').map digitsToNat? with
  | h :: m :: _ => (h.getD 0, m.getD 0)
  | [h] => (h.getD 0, 0)
  | [] => (0, 0)

def msPerMinute : Int := 60000

/-- CalendarPickerModal.tsx lines 71-72:
`setMinutes(setHours(selectedDate, hours), minutes)` on the calendar's
midnight-anchored date, i.e. `day + (hours*60 + minutes)` minutes. -/
def submissionStart (day : Int) (selectedTime : String) : Int :=
  let hm := parseHM selectedTime
  day + ((hm.1 * 60 + hm.2 : Nat) : Int) * msPerMinute

/-- CalendarPickerModal.tsx lines 60-103, as the pure submission function: the
inputs are the component state (`patient`, `selectedDate` as the picked day's
midnight timestamp, `selectedTime`, `selectedProvider`, `selectedRoom`) and the
fetched `dayAppointments` snapshot; the result says which return path ran.
`addMinutes(startDateTime, 30)` adds 30 minutes (line 73, the hard-coded
"Default 30 minutes"). -/
def handleCreateAppointment (patient : Option String) (selectedDate : Option Int)
    (selectedTime : String) (selectedProvider : String) (selectedRoom : String)
    (dayAppointments : List Appt) : SubmitResult :=
  match patient, selectedDate with
  | some patientId, some day =>
    if selectedTime == "" then .missingInfo
    else
      let startDateTime := submissionStart day selectedTime
      let endDateTime := startDateTime + 30 * msPerMinute
      if selectedProvider != "" &&
          isSlotConflictingForProvider ⟨startDateTime, endDateTime⟩ selectedProvider dayAppointments then
        .providerConflict
      else
        .created
          { patient_id := patientId
            provider_id :=
              if selectedProvider != "" && selectedProvider != "all" then some selectedProvider
              else none
            room_id := if selectedRoom != "" then some selectedRoom else none
            starts_at := startDateTime
            ends_at := endDateTime }
  | _, _ => .missingInfo

/-- An appointment row as consumed by the calendar page's event conversion
(src/unnamed/part_000, lines 104-110): `starts_at` and `ends_at` may be
absent. -/
structure CalAppt where
  id : String
  starts_at : Option Int
  ends_at : Option Int
  deriving Repr, DecidableEq

/-- The end-normalization step of the event conversion (src/unnamed/part_000,
lines 107-109): a missing or non-positive-length end is replaced by
`start + 30*60000`.  Packaged as the interval it produces. -/
def normalizeInterval (start end0 : Int) : TimeInterval :=
  ⟨start, if end0 ≤ start then start + 30 * msPerMinute else end0⟩

/-- The calendar event produced for one appointment (src/unnamed/part_000,
lines 104-110): `start` defaults to the current time `now` when `starts_at` is
absent, `end` defaults to `start + 30` minutes when `ends_at` is absent, and a
non-positive span is normalized to 30 minutes. -/
def toCalendarEvent (now : Int) (a : CalAppt) : TimeInterval :=
  let start := a.starts_at.getD now
  let end0 := a.ends_at.getD (start + 30 * msPerMinute)
  normalizeInterval start end0

/-- Follows the claim's words, not the source (refinement comparison for the
draft builder): a `buildDraft` with an explicit `durationMinutes` parameter,
computing `end = start + durationMinutes` and applying interval normalization.
The source's submission path (`handleCreateAppointment`) has no such
parameter: the 30-minute duration is hard-coded. -/
def buildDraftClaimed (patientId : String) (day : Int) (timeOfDay : String)
    (providerId roomId : Option String) (durationMinutes : Int) : Draft :=
  let start := submissionStart day timeOfDay
  let iv := normalizeInterval start (start + durationMinutes * msPerMinute)
  ⟨patientId, providerId, roomId, iv.start, iv.stop⟩

/-- The inline busy test, phrased as the existence of an overlapping
appointment for the provider. -/
theorem providerBusyAt_iff (providerId : String) (slot : Slot) (appts : List Appt) :
    providerBusyAt providerId slot appts = true ↔
      ∃ a ∈ appts, a.provider_id = some providerId ∧
        overlaps a.starts_at a.ends_at slot.start slot.stop = true := by
  simp [providerBusyAt, List.any_eq_true, Bool.and_eq_true, beq_iff_eq]

/-- C2: the interval overlap predicate is half-open: `overlaps a b` is true iff
`a.start < b.end` and `a.end > b.start`; in particular an interval never
overlaps one that starts exactly where it ends. -/
theorem overlaps_halfOpen (a b : TimeInterval) :
    (overlaps a.start a.stop b.start b.stop = true ↔ a.start < b.stop ∧ a.stop > b.start) ∧
    ∀ x : Int, overlaps a.start a.stop a.stop x = false := by
  constructor
  · simp [overlaps]
  · intro x
    simp [overlaps]

/-- C4: interval normalization returns `{start, start + 30 minutes}` when
`end ≤ start` and `{start, end}` unchanged otherwise, so the normalized
interval always has positive duration. -/
theorem normalizeInterval_spec (start end0 : Int) :
    (end0 ≤ start → normalizeInterval start end0 = ⟨start, start + 30 * msPerMinute⟩) ∧
    (start < end0 → normalizeInterval start end0 = ⟨start, end0⟩) ∧
    (normalizeInterval start end0).start < (normalizeInterval start end0).stop := by
  refine ⟨fun h => ?_, fun h => ?_, ?_⟩
  · simp [normalizeInterval, h]
  · simp [normalizeInterval, not_le.mpr h]
  · simp only [normalizeInterval, msPerMinute]
    split <;> omega

/-- Witness for C4 at concrete inputs: a zero-length interval is widened to 30
minutes and a positive one is kept. -/
theorem normalizeInterval_spec_witness :
    normalizeInterval 0 0 = ⟨0, 0 + 30 * msPerMinute⟩ ∧ normalizeInterval 0 5 = ⟨0, 5⟩ :=
  ⟨(normalizeInterval_spec 0 0).1 (by decide), (normalizeInterval_spec 0 5).2.1 (by decide)⟩

/-- C5: `isSlotTakenByAllProviders` is true iff the provider list is nonempty
and every provider in it has some appointment with that provider's id
overlapping the slot; in particular an empty provider list yields `false`. -/
theorem isSlotTakenByAllProviders_spec (slot : Slot) (providers : List Provider)
    (dayAppointments : List Appt) :
    isSlotTakenByAllProviders slot providers dayAppointments = true ↔
      providers ≠ [] ∧ ∀ p ∈ providers, ∃ a ∈ dayAppointments,
        a.provider_id = some p.id ∧
        overlaps a.starts_at a.ends_at slot.start slot.stop = true := by
  rcases providers with _ | ⟨p, ps⟩
  · simp [isSlotTakenByAllProviders]
  · simp [isSlotTakenByAllProviders, providerBusyAt, List.all_eq_true, List.any_eq_true,
      Bool.and_eq_true, beq_iff_eq, and_comm]

/-- C10: in the appointment-to-calendar-event conversion, a missing
`starts_at` defaults to the current time, a present one is used as-is, a
missing `ends_at` defaults to `start + 30` minutes, an `ends_at` not strictly
after the start is replaced by `start + 30` minutes, a strictly later
`ends_at` is kept, and every produced event satisfies `end > start`. -/
theorem toCalendarEvent_spec (now : Int) (a : CalAppt) :
    (a.starts_at = none → (toCalendarEvent now a).start = now) ∧
    (∀ s, a.starts_at = some s → (toCalendarEvent now a).start = s) ∧
    (a.ends_at = none →
      (toCalendarEvent now a).stop = (toCalendarEvent now a).start + 30 * msPerMinute) ∧
    (∀ e, a.ends_at = some e → e ≤ a.starts_at.getD now →
      (toCalendarEvent now a).stop = (toCalendarEvent now a).start + 30 * msPerMinute) ∧
    (∀ e, a.ends_at = some e → a.starts_at.getD now < e → (toCalendarEvent now a).stop = e) ∧
    (toCalendarEvent now a).start < (toCalendarEvent now a).stop := by
  refine ⟨fun h => ?_, fun s hs => ?_, fun h => ?_, fun e he hle => ?_, fun e he hlt => ?_, ?_⟩
  · simp [toCalendarEvent, normalizeInterval, h]
  · simp [toCalendarEvent, normalizeInterval, hs]
  · simp only [toCalendarEvent, normalizeInterval, h, Option.getD_none, Option.getD_some,
      msPerMinute]
    split <;> omega
  · simp only [toCalendarEvent, normalizeInterval, he, Option.getD_some]
    simp only [if_pos hle]
  · simp only [toCalendarEvent, normalizeInterval, he, Option.getD_some]
    simp only [if_neg (not_le.mpr hlt)]
  · simp only [toCalendarEvent, normalizeInterval, msPerMinute]
    split <;> omega

/-- Witness for C10 at a concrete record with both timestamps missing: start
defaults to `now = 5` and the end is 30 minutes later. -/
theorem toCalendarEvent_spec_witness :
    (toCalendarEvent 5 ⟨"a1", none, none⟩).start = 5 ∧
    (toCalendarEvent 5 ⟨"a1", none, none⟩).stop =
      (toCalendarEvent 5 ⟨"a1", none, none⟩).start + 30 * msPerMinute ∧
    (toCalendarEvent 5 ⟨"a1", none, none⟩).start < (toCalendarEvent 5 ⟨"a1", none, none⟩).stop :=
  ⟨(toCalendarEvent_spec 5 ⟨"a1", none, none⟩).1 rfl,
   (toCalendarEvent_spec 5 ⟨"a1", none, none⟩).2.2.1 rfl,
   (toCalendarEvent_spec 5 ⟨"a1", none, none⟩).2.2.2.2.2⟩

/-- In "any provider" mode the scan is `findSome?` over the slots, pairing
each slot with the first provider (in list order) free at it. -/
theorem findNearestAvailable_any (slots : List Slot) (pid : String)
    (providers : List Provider) (appts : List Appt)
    (h : (pid == "" || pid == "all") = true) :
    findNearestAvailable slots pid providers appts =
      slots.findSome? fun s =>
        (providers.find? fun p => !providerBusyAt p.id s appts).map fun p => (s, p.id) := by
  induction slots with
  | nil => simp [findNearestAvailable]
  | cons s rest ih =>
    rw [findNearestAvailable, if_pos h]
    cases hf : providers.find? fun p => !providerBusyAt p.id s appts with
    | some p =>
      rw [List.findSome?_cons_of_isSome]
      · simp [hf]
      · simp [hf]
    | none =>
      rw [List.findSome?_cons_of_isNone]
      · exact ih
      · simp [hf]

/-- In specific-provider mode the scan is `find?` for the first slot at which
the selected provider is not busy. -/
theorem findNearestAvailable_specific (slots : List Slot) (pid : String)
    (providers : List Provider) (appts : List Appt)
    (h : (pid == "" || pid == "all") = false) :
    findNearestAvailable slots pid providers appts =
      (slots.find? fun s => !providerBusyAt pid s appts).map fun s => (s, pid) := by
  have hne : (pid == "") = false := by
    cases he : pid == "" <;> simp [he] at h ⊢
  have hconf : ∀ s, isSlotConflictingForProvider s pid appts = providerBusyAt pid s appts := by
    intro s
    simp [isSlotConflictingForProvider, hne]
  induction slots with
  | nil => simp [findNearestAvailable]
  | cons s rest ih =>
    rw [findNearestAvailable, if_neg (by simp [h]), hconf s, List.find?_cons]
    cases hb : providerBusyAt pid s appts with
    | false => simp [hb]
    | true => simpa [hb] using ih

/-- C1: `findNearestAvailable` is a first-fit scan of the slot sequence in
its given (chronological) order: with a specific provider selected it returns
the first slot at which that provider has no overlapping appointment, bound to
that provider; in "any provider" mode (empty or `'all'` selection) it returns,
at the first slot admitting one, the first provider in provider-list order
with no overlapping appointment there; and it returns `none` exactly when no
slot/provider pairing is free. -/
theorem findNearestAvailable_spec (slots : List Slot) (pid : String)
    (providers : List Provider) (appts : List Appt) :
    (findNearestAvailable slots pid providers appts =
      if pid = "" ∨ pid = "all" then
        slots.findSome? fun s =>
          (providers.find? fun p => !providerBusyAt p.id s appts).map fun p => (s, p.id)
      else
        (slots.find? fun s => !providerBusyAt pid s appts).map fun s => (s, pid)) ∧
    (findNearestAvailable slots pid providers appts = none ↔
      ∀ s ∈ slots,
        if pid = "" ∨ pid = "all" then ∀ p ∈ providers, providerBusyAt p.id s appts = true
        else providerBusyAt pid s appts = true) := by
  by_cases hc : pid = "" ∨ pid = "all"
  · have hb : (pid == "" || pid == "all") = true := by
      rcases hc with h | h <;> simp [h]
    have heq := findNearestAvailable_any slots pid providers appts hb
    refine ⟨by rw [if_pos hc]; exact heq, ?_⟩
    rw [heq]
    rw [List.findSome?_eq_none_iff]
    constructor
    · intro h s hs
      rw [if_pos hc]
      intro p hp
      have := h s hs
      rw [Option.map_eq_none'] at this
      rw [List.find?_eq_none] at this
      have := this p hp
      simpa using this
    · intro h s hs
      rw [Option.map_eq_none', List.find?_eq_none]
      intro p hp
      have := h s hs
      rw [if_pos hc] at this
      simpa using this p hp
  · have hb : (pid == "" || pid == "all") = false := by
      push_neg at hc
      simp [hc.1, hc.2]
    have heq := findNearestAvailable_specific slots pid providers appts hb
    refine ⟨by rw [if_neg hc]; exact heq, ?_⟩
    rw [heq]
    rw [Option.map_eq_none', List.find?_eq_none]
    constructor
    · intro h s hs
      rw [if_neg hc]
      have := h s hs
      simpa using this
    · intro h s hs
      have := h s hs
      rw [if_neg hc] at this
      simpa using this

/-- Witness for C1, Scenario 3: providers `[P1, P2]`, P1 busy 09:00-10:00
(minutes 540-600), P2 free; in "any provider" mode the resolver returns the
09:00 slot paired with P2. -/
theorem findNearestAvailable_spec_witness :
    findNearestAvailable [⟨540, 570⟩, ⟨570, 600⟩] "all"
        [⟨"P1", "One", none⟩, ⟨"P2", "Two", none⟩] [⟨"a1", some "P1", 540, 600⟩] =
      some (⟨540, 570⟩, "P2") := by
  have h := (findNearestAvailable_spec [⟨540, 570⟩, ⟨570, 600⟩] "all"
    [⟨"P1", "One", none⟩, ⟨"P2", "Two", none⟩] [⟨"a1", some "P1", 540, 600⟩]).1
  rw [h]
  decide

/-- Witness for C2 at concrete intervals: 0-30 overlaps 29-60 but not the
touching 30-60. -/
theorem overlaps_halfOpen_witness :
    overlaps 0 30 29 60 = true ∧ overlaps 0 30 30 60 = false :=
  ⟨((overlaps_halfOpen ⟨0, 30⟩ ⟨29, 60⟩).1).mpr (by decide),
   (overlaps_halfOpen ⟨0, 30⟩ ⟨30, 60⟩).2 60⟩

/-- Witness for C5, Scenario 2 shape: a single provider with an overlapping
appointment makes the slot fully booked. -/
theorem isSlotTakenByAllProviders_spec_witness :
    isSlotTakenByAllProviders ⟨0, 30⟩ [⟨"P1", "One", none⟩] [⟨"a1", some "P1", 0, 30⟩] = true :=
  (isSlotTakenByAllProviders_spec ⟨0, 30⟩ [⟨"P1", "One", none⟩]
    [⟨"a1", some "P1", 0, 30⟩]).mpr ⟨by decide, by decide⟩

/-- C3: with a specific provider selected (neither empty nor the `'all'`
sentinel) and the mandatory fields present, submission re-checks the provider
against the day's appointment snapshot: an overlapping appointment for that
provider yields the conflict outcome (the create mutation is not reached),
and otherwise the create call is issued with the built payload. -/
theorem handleCreateAppointment_revalidates (patientId : String) (day : Int)
    (selectedTime selectedProvider selectedRoom : String) (appts : List Appt)
    (htime : selectedTime ≠ "") (hpid : selectedProvider ≠ "") (hall : selectedProvider ≠ "all") :
    ((∃ a ∈ appts, a.provider_id = some selectedProvider ∧
        overlaps a.starts_at a.ends_at (submissionStart day selectedTime)
          (submissionStart day selectedTime + 30 * msPerMinute) = true) →
      handleCreateAppointment (some patientId) (some day) selectedTime selectedProvider
        selectedRoom appts = .providerConflict) ∧
    ((∀ a ∈ appts, ¬(a.provider_id = some selectedProvider ∧
        overlaps a.starts_at a.ends_at (submissionStart day selectedTime)
          (submissionStart day selectedTime + 30 * msPerMinute) = true)) →
      handleCreateAppointment (some patientId) (some day) selectedTime selectedProvider
        selectedRoom appts =
        .created ⟨patientId, some selectedProvider,
          if selectedRoom != "" then some selectedRoom else none,
          submissionStart day selectedTime,
          submissionStart day selectedTime + 30 * msPerMinute⟩) := by
  have htimeb : (selectedTime == "") = false := by simp [htime]
  have hpidb : (selectedProvider == "") = false := by simp [hpid]
  have hallb : (selectedProvider == "all") = false := by simp [hall]
  have hconf : isSlotConflictingForProvider
      ⟨submissionStart day selectedTime, submissionStart day selectedTime + 30 * msPerMinute⟩
      selectedProvider appts =
      providerBusyAt selectedProvider
        ⟨submissionStart day selectedTime, submissionStart day selectedTime + 30 * msPerMinute⟩
        appts := by
    simp [isSlotConflictingForProvider, hpidb]
  constructor
  · intro hex
    have hbusy : providerBusyAt selectedProvider
        ⟨submissionStart day selectedTime, submissionStart day selectedTime + 30 * msPerMinute⟩
        appts = true :=
      (providerBusyAt_iff _ _ _).mpr hex
    simp only [handleCreateAppointment, htimeb, Bool.false_eq_true, if_false, hconf, hbusy,
      bne, hpidb, Bool.not_false, Bool.true_and, if_true]
  · intro hnone
    have hbusy : providerBusyAt selectedProvider
        ⟨submissionStart day selectedTime, submissionStart day selectedTime + 30 * msPerMinute⟩
        appts = false := by
      cases hb : providerBusyAt selectedProvider
          ⟨submissionStart day selectedTime, submissionStart day selectedTime + 30 * msPerMinute⟩
          appts with
      | false => rfl
      | true =>
        exfalso
        obtain ⟨a, ha, hid, hov⟩ := (providerBusyAt_iff _ _ _).mp hb
        exact hnone a ha ⟨hid, hov⟩
    simp only [handleCreateAppointment, htimeb, Bool.false_eq_true, if_false, hconf, hbusy,
      bne, hpidb, hallb, Bool.not_false, Bool.true_and, Bool.and_false, Bool.and_self, if_true]

/-- Witness for C3: provider P1 already booked over the chosen 09:00-09:30
interval, so a P1 submission at 09:00 conflicts. -/
theorem handleCreateAppointment_revalidates_witness :
    handleCreateAppointment (some "pt1") (some 0) "09:00" "P1" ""
      [⟨"a1", some "P1", 32400000, 34200000⟩] = .providerConflict :=
  (handleCreateAppointment_revalidates "pt1" 0 "09:00" "P1" ""
    [⟨"a1", some "P1", 32400000, 34200000⟩]
    (by decide) (by decide) (by decide)).1 (by decide)

/-- C6: submission fails on the missing-information path exactly when the
patient, the date, or the time-of-day is absent; the provider and room
selections play no role in this validation, and on this failure the result is
the validation outcome, not a create call. -/
theorem handleCreateAppointment_validation (patient : Option String) (selectedDate : Option Int)
    (selectedTime selectedProvider selectedRoom : String) (appts : List Appt) :
    handleCreateAppointment patient selectedDate selectedTime selectedProvider selectedRoom
        appts = .missingInfo ↔
      patient = none ∨ selectedDate = none ∨ selectedTime = "" := by
  rcases patient with _ | p
  · simp [handleCreateAppointment]
  rcases selectedDate with _ | d
  · simp [handleCreateAppointment]
  simp only [handleCreateAppointment, Option.some_ne_none, false_or]
  by_cases ht : selectedTime = ""
  · simp [ht]
  · have htb : (selectedTime == "") = false := by simp [ht]
    simp only [htb, Bool.false_eq_true, if_false, ht, or_false, iff_false]
    split <;> simp

/-- Witness for C6: with no date selected the submission reports missing
information. -/
theorem handleCreateAppointment_validation_witness :
    handleCreateAppointment (some "pt1") none "09:00" "all" "" [] = .missingInfo :=
  (handleCreateAppointment_validation (some "pt1") none "09:00" "all" "" []).mpr (by decide)

/-- C7 counterexample: the fully-booked/per-provider-conflict monotonicity
fails as universally stated.  A provider whose id is the empty string is
counted by `isSlotTakenByAllProviders` (which compares ids directly), yet
`isSlotConflictingForProvider` hits the falsy-id guard and reports no
conflict for it. -/
theorem fullyBooked_monotonicity_counterexample :
    isSlotTakenByAllProviders ⟨0, 1800000⟩ [⟨"", "Unnamed", none⟩]
      [⟨"a1", some "", 0, 1800000⟩] = true ∧
    (⟨"", "Unnamed", none⟩ : Provider) ∈ [(⟨"", "Unnamed", none⟩ : Provider)] ∧
    isSlotConflictingForProvider ⟨0, 1800000⟩ "" [⟨"a1", some "", 0, 1800000⟩] = false := by
  decide

/-- C7 (amended): if `isSlotTakenByAllProviders` holds, then for every
provider in the set whose id is not the empty string (the code's
"unspecified" sentinel, on which the conflict predicate short-circuits to
false), the per-provider conflict predicate is true. -/
theorem fullyBooked_monotonicity (slot : Slot) (providers : List Provider)
    (appts : List Appt)
    (hfull : isSlotTakenByAllProviders slot providers appts = true) :
    ∀ p ∈ providers, p.id ≠ "" → isSlotConflictingForProvider slot p.id appts = true := by
  intro p hp hne
  have hneb : (p.id == "") = false := by simp [hne]
  unfold isSlotTakenByAllProviders at hfull
  rw [isSlotConflictingForProvider, if_neg (by simp [hneb])]
  rcases providers with _ | ⟨q, qs⟩
  · cases hp
  · simp only [List.isEmpty_cons, Bool.false_eq_true, if_false, List.all_eq_true] at hfull
    exact hfull p hp

/-- Witness for the amended C7: one provider with a nonempty id, booked over
the whole slot, is reported as conflicting. -/
theorem fullyBooked_monotonicity_witness :
    isSlotConflictingForProvider ⟨0, 1800000⟩ "P1" [⟨"a1", some "P1", 0, 1800000⟩] = true :=
  fullyBooked_monotonicity ⟨0, 1800000⟩ [⟨"P1", "One", none⟩] [⟨"a1", some "P1", 0, 1800000⟩]
    (by decide) ⟨"P1", "One", none⟩ (by decide) (by decide)

/-- C9: with the `'all'` sentinel selected, the submit-time conflict check
compares each appointment's `provider_id` against the literal string `"all"`;
on any snapshot in which no appointment carries that id the check finds no
conflict, and the submission proceeds to the create call (with no provider
bound in the payload). -/
theorem handleCreateAppointment_allSentinel (patientId : String) (day : Int)
    (selectedTime selectedRoom : String) (appts : List Appt)
    (htime : selectedTime ≠ "")
    (hall : ∀ a ∈ appts, a.provider_id ≠ some "all") :
    isSlotConflictingForProvider
      ⟨submissionStart day selectedTime, submissionStart day selectedTime + 30 * msPerMinute⟩
      "all" appts = false ∧
    handleCreateAppointment (some patientId) (some day) selectedTime "all" selectedRoom appts =
      .created ⟨patientId, none, if selectedRoom != "" then some selectedRoom else none,
        submissionStart day selectedTime,
        submissionStart day selectedTime + 30 * msPerMinute⟩ := by
  have htimeb : (selectedTime == "") = false := by simp [htime]
  have hnoc : isSlotConflictingForProvider
      ⟨submissionStart day selectedTime, submissionStart day selectedTime + 30 * msPerMinute⟩
      "all" appts = false := by
    rw [isSlotConflictingForProvider, if_neg (by simp)]
    rw [providerBusyAt, List.any_eq_false]
    intro a ha
    simp [hall a ha]
  refine ⟨hnoc, ?_⟩
  simp only [handleCreateAppointment, htimeb, Bool.false_eq_true, if_false, hnoc,
    Bool.and_false, bne_self_eq_false, Bool.and_self]

/-- Witness for C9: both real providers are booked over the chosen 14:00-14:30
interval, yet the `'all'` submission issues the create call. -/
theorem handleCreateAppointment_allSentinel_witness :
    handleCreateAppointment (some "pt1") (some 0) "14:00" "all" ""
      [⟨"a1", some "P1", 50400000, 52200000⟩, ⟨"a2", some "P2", 50400000, 52200000⟩] =
      .created ⟨"pt1", none, none, 50400000, 52200000⟩ := by
  have h := (handleCreateAppointment_allSentinel "pt1" 0 "14:00" ""
    [⟨"a1", some "P1", 50400000, 52200000⟩, ⟨"a2", some "P2", 50400000, 52200000⟩]
    (by decide) (by decide)).2
  rw [h]
  rfl

/-- C8 counterexample: the submission path has no `durationMinutes` input; it
hard-codes 30 minutes.  The builder the claim describes (spelled out as
`buildDraftClaimed`) produces a 60-minute draft when 60 minutes are supplied,
but the code's submission at the same patient/date/time produces a 30-minute
draft, and nothing in its inputs can change that. -/
theorem buildDraft_duration_counterexample :
    (buildDraftClaimed "pt1" 0 "14:00" none none 60).ends_at -
      (buildDraftClaimed "pt1" 0 "14:00" none none 60).starts_at = 60 * msPerMinute ∧
    handleCreateAppointment (some "pt1") (some 0) "14:00" "" "" [] =
      .created ⟨"pt1", none, none, 50400000, 52200000⟩ ∧
    ((52200000 - 50400000 : Int) = 30 * msPerMinute ∧ (30 * msPerMinute : Int) ≠ 60 * msPerMinute) := by
  refine ⟨by rfl, by rfl, by decide, by decide⟩

/-- C8 (amended): every draft the submission path hands to the create call has
`ends_at - starts_at` equal to exactly 30 minutes — the duration is the
hard-coded default, with no caller-supplied duration to normalize. -/
theorem createdDraft_duration (patient : Option String) (selectedDate : Option Int)
    (selectedTime selectedProvider selectedRoom : String) (appts : List Appt) (draft : Draft)
    (h : handleCreateAppointment patient selectedDate selectedTime selectedProvider selectedRoom
      appts = .created draft) :
    draft.ends_at - draft.starts_at = 30 * msPerMinute := by
  rcases patient with _ | p
  · simp [handleCreateAppointment] at h
  rcases selectedDate with _ | d
  · simp [handleCreateAppointment] at h
  simp only [handleCreateAppointment] at h
  by_cases ht : (selectedTime == "") = true
  · rw [if_pos ht] at h
    cases h
  · rw [if_neg ht] at h
    split at h
    · cases h
    · cases h
      simp

/-- Witness for the amended C8: the concrete 14:00 submission yields a draft
spanning exactly 30 minutes. -/
theorem createdDraft_duration_witness :
    (⟨"pt1", none, none, 50400000, 52200000⟩ : Draft).ends_at -
      (⟨"pt1", none, none, 50400000, 52200000⟩ : Draft).starts_at = 30 * msPerMinute :=
  createdDraft_duration (some "pt1") (some 0) "14:00" "" "" []
    ⟨"pt1", none, none, 50400000, 52200000⟩ (by rfl)

end IconicEmr
